import Mathlib

/-!
Verification of the LeNet network-builder component of the `mnist_lenet`
example (`src/mnist_lenet/__init__.py`).

The `LeNet` class composes a convolutional feature-extraction pipeline,
a flattener and a top MLP, and propagates shape information in
`_push_allocation_config`.  The class's own logic (constructor,
`output_dim` property, `_push_allocation_config`) is embedded directly
from the source.  The behaviour of the external framework bricks
(per-stage convolution/pooling shape arithmetic, the sequence's
`get_dim('output')`, application order of a feedforward sequence) is not
part of this repository; those definitions are modelled from the spec and
are marked as such in their doc comments.

Integer quantities (widths, dimensions, channel counts) are modelled as
`Int`, matching Python's unbounded integers and allowing non-positive
computed dimensions to be observed.
-/

/-- Activation bricks that appear in the example (`Rectifier`, `Softmax`).
Only their identity matters for the builder, which stores and forwards
them. -/
inductive Activation where
  | rectifier
  | softmax
deriving DecidableEq, Repr

/-- One feature-extraction stage, as built by `LeNet.__init__`:
a `ConvolutionalLayer(filter_size=..., num_filters=..., pooling_size=...,
activation=..., conv_step=..., border_mode=..., name='conv_pool_i')`. -/
structure ConvolutionalLayer where
  filter_size : Int × Int
  num_filters : Int
  pooling_size : Int × Int
  activation : Activation
  conv_step : Int × Int
  border_mode : String
  name : String
deriving DecidableEq, Repr

/-- The `ConvolutionalSequence(self.layers, num_channels,
image_size=image_shape)` brick: the stage list seeded with the input
channel count and spatial shape. -/
structure ConvolutionalSequence where
  layers : List ConvolutionalLayer
  num_channels : Int
  image_size : Int × Int
deriving DecidableEq, Repr

/-- The top `MLP(top_mlp_activations, top_mlp_dims)` brick: it stores an
activation list and a width list (`dims`). -/
structure MLP where
  activations : List Activation
  dims : List Int
deriving DecidableEq, Repr

/-- The three application methods composed by the builder, in the order
the source pushes them into `application_methods`. -/
inductive AppMethod where
  | convSequenceApply
  | flattenerApply
  | topMlpApply
deriving DecidableEq, Repr

/-- The `LeNet` instance state: the attributes set by `__init__`. -/
structure LeNet where
  conv_step : Int × Int
  num_channels : Int
  image_shape : Int × Int
  top_mlp_activations : List Activation
  top_mlp_dims : List Int
  border_mode : String
  layers : List ConvolutionalLayer
  conv_sequence : ConvolutionalSequence
  top_mlp : MLP
  application_methods : List AppMethod
deriving DecidableEq, Repr

/-- The list comprehension of `LeNet.__init__`:
`[ConvolutionalLayer(...) for i, (activation, filter_size, num_filter,
pooling_size) in enumerate(zip(conv_activations, filter_sizes,
feature_maps, pooling_sizes))]`.  Python's `zip` truncates to the
shortest input list; the index argument `i` threads `enumerate`. -/
def mkLayers (conv_step : Int × Int) (border_mode : String) :
    Nat → List Activation → List (Int × Int) → List Int → List (Int × Int) →
    List ConvolutionalLayer
  | i, activation :: as, filter_size :: fs, num_filter :: ms, pooling_size :: ps =>
      { filter_size := filter_size
        num_filters := num_filter
        pooling_size := pooling_size
        activation := activation
        conv_step := conv_step
        border_mode := border_mode
        name := "conv_pool_" ++ toString i } ::
        mkLayers conv_step border_mode (i + 1) as fs ms ps
  | _, _, _, _, _ => []

/-- `LeNet.__init__`.  `conv_step` is the optional stride argument
(`None` in Python becomes `none` here, giving the `(1, 1)` default);
`border_mode` defaults to `'valid'` at the call sites that omit it. -/
def LeNet.init (conv_activations : List Activation) (num_channels : Int)
    (image_shape : Int × Int) (filter_sizes : List (Int × Int))
    (feature_maps : List Int) (pooling_sizes : List (Int × Int))
    (top_mlp_activations : List Activation) (top_mlp_dims : List Int)
    (conv_step : Option (Int × Int)) (border_mode : String) : LeNet :=
  let step : Int × Int :=
    match conv_step with
    | none => (1, 1)
    | some s => s
  let layers := mkLayers step border_mode 0 conv_activations filter_sizes
    feature_maps pooling_sizes
  { conv_step := step
    num_channels := num_channels
    image_shape := image_shape
    top_mlp_activations := top_mlp_activations
    top_mlp_dims := top_mlp_dims
    border_mode := border_mode
    layers := layers
    conv_sequence :=
      { layers := layers
        num_channels := num_channels
        image_size := image_shape }
    top_mlp :=
      { activations := top_mlp_activations
        dims := top_mlp_dims }
    application_methods :=
      [AppMethod.convSequenceApply, AppMethod.flattenerApply,
       AppMethod.topMlpApply] }

/-- The `output_dim` property getter: `return self.top_mlp_dims[-1]`.
Python raises `IndexError` on an empty list; `none` models that. -/
def LeNet.output_dim (net : LeNet) : Option Int :=
  net.top_mlp_dims.getLast?

/-- The `output_dim` property setter: `self.top_mlp_dims[-1] = value`,
an in-place overwrite of the last entry.  Python raises `IndexError` on
an empty list; `none` models that. -/
def LeNet.set_output_dim (net : LeNet) (value : Int) : Option LeNet :=
  match net.top_mlp_dims with
  | [] => none
  | _ :: _ =>
      some { net with top_mlp_dims := net.top_mlp_dims.dropLast ++ [value] }

/-- Modelled from the spec: the output length of a sliding-window
transform along one spatial axis.  The `ConvolutionalLayer` brick that
performs this lives in the external framework, not in this repository.
Spec: "full" padding maximises the output (`28 + 5 - 1 = 32` for size-5
filters at stride 1); the default mode uses no padding
(`in - filter + 1` at stride 1); a stride divides the number of window
positions. -/
def convOutDim (border_mode : String) (inDim filterDim step : Int) : Int :=
  if border_mode = "full" then (inDim + filterDim - 2) / step + 1
  else (inDim - filterDim) / step + 1

/-- Modelled from the spec: max-pooling with a given window divides the
spatial dimension (`32` pooled by `2` gives `16`).  The pooling brick
lives in the external framework, not in this repository. -/
def poolOutDim (inDim poolDim : Int) : Int :=
  inDim / poolDim

/-- Modelled from the spec: one stage resolves its output shape
(channels, height, width) from its input shape and its configured
filter/pooling/stride/border parameters — convolution then pooling on
each spatial axis, channel count replaced by the stage's filter count. -/
def ConvolutionalLayer.outputShape (l : ConvolutionalLayer)
    (d : Int × Int × Int) : Int × Int × Int :=
  (l.num_filters,
   poolOutDim (convOutDim l.border_mode d.2.1 l.filter_size.1 l.conv_step.1)
     l.pooling_size.1,
   poolOutDim (convOutDim l.border_mode d.2.2 l.filter_size.2 l.conv_step.2)
     l.pooling_size.2)

/-- Modelled from the spec: `ConvolutionalSequence.get_dim('output')`
(external framework code) resolves each stage's output shape in order
from the seeded input shape `(num_channels, height, width)` and returns
the final one; with no stages the input shape passes through unchanged
(degenerate but not an error). -/
def ConvolutionalSequence.get_dim_output (cs : ConvolutionalSequence) :
    Int × Int × Int :=
  cs.layers.foldl (fun d l => l.outputShape d)
    (cs.num_channels, cs.image_size.1, cs.image_size.2)

/-- Modelled from the spec: the successive per-stage output shapes of the
pipeline, in stage order (the trace of `get_dim_output`). -/
def ConvolutionalSequence.stageShapes (cs : ConvolutionalSequence) :
    List (Int × Int × Int) :=
  (cs.layers.scanl (fun d l => l.outputShape d)
    (cs.num_channels, cs.image_size.1, cs.image_size.2)).drop 1

/-- Modelled from the spec: `ConvolutionalSequence._push_allocation_config`
(external framework code) resolves and records each stage's shapes.  In
this functional model shapes are derived by `get_dim_output` rather than
stored in the stages, so the propagation step carries no new
information: the sequence is returned unchanged, and no error is raised
for any configuration. -/
def ConvolutionalSequence.push_allocation_config
    (cs : ConvolutionalSequence) : ConvolutionalSequence :=
  cs

/-- `numpy.prod` over the `(channels, height, width)` output tuple. -/
def prod3 (d : Int × Int × Int) : Int :=
  d.1 * d.2.1 * d.2.2

/-- `LeNet._push_allocation_config` (source lines 116-121): propagate
shapes through the convolutional sequence, read its output dimensions,
then set `self.top_mlp.activations = self.top_mlp_activations` and
`self.top_mlp.dims = [numpy.prod(conv_out_dim)] + self.top_mlp_dims`.
The result is wrapped in `Except` to make the error behaviour
observable: the source raises nothing on any path, so every branch
returns `Except.ok`. -/
def LeNet.push_allocation_config (net : LeNet) : Except String LeNet :=
  let cs := net.conv_sequence.push_allocation_config
  let conv_out_dim := cs.get_dim_output
  Except.ok
    { net with
      conv_sequence := cs
      top_mlp :=
        { activations := net.top_mlp_activations
          dims := prod3 conv_out_dim :: net.top_mlp_dims } }

/-- Modelled from the spec: `FeedforwardSequence.apply` (external
framework code) applies the stored application methods in list order, so
the network's output is the left-to-right composition of the methods. -/
def applyMethodList {T : Type} (interp : AppMethod → T → T)
    (ms : List AppMethod) (x : T) : T :=
  ms.foldl (fun acc m => interp m acc) x

/-- An interpretation of the three application methods as functions on an
abstract tensor type. -/
def interpApp {T : Type} (convApply flatApply mlpApply : T → T) :
    AppMethod → T → T
  | AppMethod.convSequenceApply => convApply
  | AppMethod.flattenerApply => flatApply
  | AppMethod.topMlpApply => mlpApply

/-- The example configuration built by `main` with its defaults:
`feature_maps=[6, 16]`, `mlp_hiddens=[120, 84]`, `conv_sizes=[5, 5]`,
`pool_sizes=[2, 2]`, `image_size=(28, 28)`, `output_size=10`, one input
channel, `border_mode='full'`, stride omitted. -/
def exampleNet : LeNet :=
  LeNet.init [Activation.rectifier, Activation.rectifier] 1 (28, 28)
    [(5, 5), (5, 5)] [6, 16] [(2, 2), (2, 2)]
    [Activation.rectifier, Activation.rectifier, Activation.softmax]
    [120, 84, 10] none "full"

lemma mkLayers_length (cstep : Int × Int) (bmode : String) :
    ∀ (i : Nat) (as : List Activation) (fs : List (Int × Int)) (ms : List Int)
      (ps : List (Int × Int)),
      (mkLayers cstep bmode i as fs ms ps).length =
        min (min (min as.length fs.length) ms.length) ps.length := by
  intro i as
  induction as generalizing i with
  | nil => intro fs ms ps; simp [mkLayers]
  | cons a as ih =>
    intro fs ms ps
    cases fs with
    | nil => simp [mkLayers]
    | cons f fs =>
      cases ms with
      | nil => simp [mkLayers]
      | cons m ms =>
        cases ps with
        | nil => simp [mkLayers]
        | cons p ps =>
          simp only [mkLayers, List.length_cons, ih]
          omega

lemma mkLayers_get (cstep : Int × Int) (bmode : String) :
    ∀ (as : List Activation) (fs : List (Int × Int)) (ms : List Int)
      (ps : List (Int × Int)) (i j : Nat)
      (h : j < (mkLayers cstep bmode i as fs ms ps).length)
      (h1 : j < as.length) (h2 : j < fs.length) (h3 : j < ms.length)
      (h4 : j < ps.length),
      (mkLayers cstep bmode i as fs ms ps).get ⟨j, h⟩ =
        { filter_size := fs.get ⟨j, h2⟩
          num_filters := ms.get ⟨j, h3⟩
          pooling_size := ps.get ⟨j, h4⟩
          activation := as.get ⟨j, h1⟩
          conv_step := cstep
          border_mode := bmode
          name := "conv_pool_" ++ toString (i + j) } := by
  intro as
  induction as with
  | nil => intro fs ms ps i j h h1 h2 h3 h4; exact absurd h1 (by simp)
  | cons a as ih =>
    intro fs ms ps i j h h1 h2 h3 h4
    cases fs with
    | nil => exact absurd h2 (by simp)
    | cons f fs =>
      cases ms with
      | nil => exact absurd h3 (by simp)
      | cons m ms =>
        cases ps with
        | nil => exact absurd h4 (by simp)
        | cons p ps =>
          cases j with
          | zero => simp [mkLayers]
          | succ j =>
            have hlt : j < (mkLayers cstep bmode (i + 1) as fs ms ps).length := by
              simpa [mkLayers] using h
            have h1' : j < as.length := by simp at h1; omega
            have h2' : j < fs.length := by simp at h2; omega
            have h3' : j < ms.length := by simp at h3; omega
            have h4' : j < ps.length := by simp at h4; omega
            have hrec := ih fs ms ps (i + 1) j hlt h1' h2' h3' h4'
            have hij : i + 1 + j = i + (j + 1) := by omega
            rw [hij] at hrec
            simpa [mkLayers] using hrec

lemma mkLayers_mem (cstep : Int × Int) (bmode : String) :
    ∀ (as : List Activation) (fs : List (Int × Int)) (ms : List Int)
      (ps : List (Int × Int)) (i : Nat) (l : ConvolutionalLayer),
      l ∈ mkLayers cstep bmode i as fs ms ps →
      l.conv_step = cstep ∧ l.border_mode = bmode := by
  intro as
  induction as with
  | nil => intro fs ms ps i l hl; simp [mkLayers] at hl
  | cons a as ih =>
    intro fs ms ps i l hl
    cases fs with
    | nil => simp [mkLayers] at hl
    | cons f fs =>
      cases ms with
      | nil => simp [mkLayers] at hl
      | cons m ms =>
        cases ps with
        | nil => simp [mkLayers] at hl
        | cons p ps =>
          simp only [mkLayers, List.mem_cons] at hl
          rcases hl with rfl | hl
          · exact ⟨rfl, rfl⟩
          · exact ih fs ms ps (i + 1) l hl

/-- C1: for every LeNet instance, shape propagation sets the classifier
head's width list `top_mlp.dims` to the flattened feature count — the
product of the feature-extraction pipeline's final output dimensions —
followed by the configured head width list `top_mlp_dims`, in that
order. -/
theorem lenet_push_sets_top_mlp_dims
    (conv_activations : List Activation) (num_channels : Int)
    (image_shape : Int × Int) (filter_sizes : List (Int × Int))
    (feature_maps : List Int) (pooling_sizes : List (Int × Int))
    (top_mlp_activations : List Activation) (top_mlp_dims : List Int)
    (conv_step : Option (Int × Int)) (border_mode : String) :
    ∃ m, (LeNet.init conv_activations num_channels image_shape filter_sizes
        feature_maps pooling_sizes top_mlp_activations top_mlp_dims
        conv_step border_mode).push_allocation_config = Except.ok m ∧
      m.top_mlp.dims =
        prod3 (LeNet.init conv_activations num_channels image_shape
          filter_sizes feature_maps pooling_sizes top_mlp_activations
          top_mlp_dims conv_step border_mode).conv_sequence.get_dim_output ::
          top_mlp_dims :=
  ⟨_, rfl, rfl⟩

/-- C2: for every construction with equal-length feature-extraction
parameter lists (and a nonempty configured head width list, so that a
last entry exists), the pipeline's final output width after shape
propagation — the `output_dim` property and the last entry of the
propagated `top_mlp.dims` — equals the last entry of the configured
`top_mlp_dims`. -/
theorem lenet_final_output_width
    (conv_activations : List Activation) (num_channels : Int)
    (image_shape : Int × Int) (filter_sizes : List (Int × Int))
    (feature_maps : List Int) (pooling_sizes : List (Int × Int))
    (top_mlp_activations : List Activation) (top_mlp_dims : List Int)
    (conv_step : Option (Int × Int)) (border_mode : String)
    (hlen : conv_activations.length = filter_sizes.length ∧
      filter_sizes.length = feature_maps.length ∧
      feature_maps.length = pooling_sizes.length)
    (hne : top_mlp_dims ≠ []) :
    ∃ m v, (LeNet.init conv_activations num_channels image_shape
        filter_sizes feature_maps pooling_sizes top_mlp_activations
        top_mlp_dims conv_step border_mode).push_allocation_config =
          Except.ok m ∧
      top_mlp_dims.getLast? = some v ∧
      m.output_dim = some v ∧
      m.top_mlp.dims.getLast? = some v := by
  obtain ⟨t, ts, rfl⟩ := List.exists_cons_of_ne_nil hne
  refine ⟨_, (t :: ts).getLast (by simp), rfl, ?_, ?_, ?_⟩
  · exact List.getLast?_eq_getLast _ _
  · exact List.getLast?_eq_getLast _ _
  · show (prod3 _ :: t :: ts).getLast? = _
    rw [List.getLast?_cons_cons]
    exact List.getLast?_eq_getLast _ _

/-- C3: for the example configuration built by `main` — two stages with
filter size (5,5), pooling size (2,2), "full" border mode, stride (1,1),
28×28 single-channel input, 6 and 16 feature maps — the full-padding
convolutions give 28+5-1=32 and 16+5-1=20, the stage output shapes are
(6,16,16) and (16,10,10) with every spatial dimension positive, and the
flattened feature count feeding the classifier head is 16×10×10 = 1600. -/
theorem example_shape_arithmetic :
    convOutDim "full" 28 5 1 = 32 ∧
    convOutDim "full" 16 5 1 = 20 ∧
    exampleNet.conv_sequence.stageShapes = [(6, 16, 16), (16, 10, 10)] ∧
    (∀ d ∈ exampleNet.conv_sequence.stageShapes, 0 < d.2.1 ∧ 0 < d.2.2) ∧
    prod3 exampleNet.conv_sequence.get_dim_output = 1600 ∧
    ∃ m, exampleNet.push_allocation_config = Except.ok m ∧
      m.top_mlp.dims = [1600, 120, 84, 10] := by
  refine ⟨by decide, by decide, by decide, by decide, by decide, _, rfl,
    by decide⟩

/-- C5: a construction with length-0 feature-extraction parameter lists
succeeds (it builds no stages), and shape propagation sets the classifier
head's effective input width — the head of the propagated `top_mlp.dims`
— to the flattened raw-input feature count
`num_channels × height × width`. -/
theorem lenet_empty_stages (num_channels : Int) (image_shape : Int × Int)
    (top_mlp_activations : List Activation) (top_mlp_dims : List Int)
    (conv_step : Option (Int × Int)) (border_mode : String) :
    (LeNet.init [] num_channels image_shape [] [] [] top_mlp_activations
      top_mlp_dims conv_step border_mode).layers = [] ∧
    ∃ m, (LeNet.init [] num_channels image_shape [] [] []
        top_mlp_activations top_mlp_dims conv_step
        border_mode).push_allocation_config = Except.ok m ∧
      m.top_mlp.dims.head? =
        some (num_channels * image_shape.1 * image_shape.2) := by
  refine ⟨?_, _, rfl, rfl⟩
  cases conv_step <;> rfl

/-- C9: for every construction, the application-method list is exactly
[feature-extraction pipeline apply, flattener apply, classifier-head
apply] in that order, so applying the composed sequence to an input
computes classifier-head(flatten(feature-extraction(input))). -/
theorem lenet_application_order
    (conv_activations : List Activation) (num_channels : Int)
    (image_shape : Int × Int) (filter_sizes : List (Int × Int))
    (feature_maps : List Int) (pooling_sizes : List (Int × Int))
    (top_mlp_activations : List Activation) (top_mlp_dims : List Int)
    (conv_step : Option (Int × Int)) (border_mode : String)
    {T : Type} (convApply flatApply mlpApply : T → T) (x : T) :
    (LeNet.init conv_activations num_channels image_shape filter_sizes
      feature_maps pooling_sizes top_mlp_activations top_mlp_dims
      conv_step border_mode).application_methods =
      [AppMethod.convSequenceApply, AppMethod.flattenerApply,
       AppMethod.topMlpApply] ∧
    applyMethodList (interpApp convApply flatApply mlpApply)
      (LeNet.init conv_activations num_channels image_shape filter_sizes
        feature_maps pooling_sizes top_mlp_activations top_mlp_dims
        conv_step border_mode).application_methods x =
      mlpApply (flatApply (convApply x)) :=
  ⟨rfl, rfl⟩

/-- C10: shape propagation does not modify the configured head width
list `top_mlp_dims`, so `output_dim` returns the same value before and
after propagation, and running propagation twice yields the same
`top_mlp.dims` both times. -/
theorem lenet_push_frame (net : LeNet) :
    ∃ m m2, net.push_allocation_config = Except.ok m ∧
      m.top_mlp_dims = net.top_mlp_dims ∧
      m.output_dim = net.output_dim ∧
      m.push_allocation_config = Except.ok m2 ∧
      m2.top_mlp.dims = m.top_mlp.dims :=
  ⟨_, _, rfl, rfl, rfl, rfl, rfl⟩

/-- C4: for every LeNet instance with a nonempty head width list (so
that a last entry exists) and every value, the getter returns the last
entry of `top_mlp_dims`; setting `output_dim` and re-reading it returns
the set value, the last entry of `top_mlp_dims` equals that value, and
the set replaces only the last entry, leaving the other entries and the
other attributes unchanged. -/
theorem lenet_output_dim_set_get (net : LeNet) (value : Int)
    (hne : net.top_mlp_dims ≠ []) :
    net.output_dim = net.top_mlp_dims.getLast? ∧
    ∃ m, net.set_output_dim value = some m ∧
      m.output_dim = some value ∧
      m.top_mlp_dims.getLast? = some value ∧
      m.top_mlp_dims = net.top_mlp_dims.dropLast ++ [value] ∧
      m.conv_step = net.conv_step ∧
      m.layers = net.layers ∧
      m.conv_sequence = net.conv_sequence ∧
      m.application_methods = net.application_methods := by
  obtain ⟨cstep, nc, ishape, ta, td, bm, ly, csq, tm, am⟩ := net
  obtain ⟨t, ts, rfl⟩ := List.exists_cons_of_ne_nil hne
  refine ⟨rfl, _, rfl, ?_, ?_, rfl, rfl, rfl, rfl, rfl⟩
  · show ((t :: ts).dropLast ++ [value]).getLast? = some value
    exact List.getLast?_concat _
  · exact List.getLast?_concat _

/-- C4 witness: the set/get round trip at the example instance with
value 7. -/
theorem lenet_output_dim_set_get_witness :
    ∃ m, exampleNet.set_output_dim 7 = some m ∧ m.output_dim = some 7 := by
  obtain ⟨-, m, hm, ho, -⟩ := lenet_output_dim_set_get exampleNet 7 (by decide)
  exact ⟨m, hm, ho⟩

/-- C6: for every construction, the number of stages built equals the
minimum of the lengths of the four feature-extraction parameter lists
(zip truncation), and the j-th stage is built from the j-th element of
each list, carries the instance's stride and border mode, and is named
`conv_pool_j`. -/
theorem lenet_stage_construction
    (conv_activations : List Activation) (num_channels : Int)
    (image_shape : Int × Int) (filter_sizes : List (Int × Int))
    (feature_maps : List Int) (pooling_sizes : List (Int × Int))
    (top_mlp_activations : List Activation) (top_mlp_dims : List Int)
    (conv_step : Option (Int × Int)) (border_mode : String) :
    (LeNet.init conv_activations num_channels image_shape filter_sizes
      feature_maps pooling_sizes top_mlp_activations top_mlp_dims
      conv_step border_mode).layers.length =
      min (min (min conv_activations.length filter_sizes.length)
        feature_maps.length) pooling_sizes.length ∧
    ∀ (j : Nat)
      (h : j < (LeNet.init conv_activations num_channels image_shape
        filter_sizes feature_maps pooling_sizes top_mlp_activations
        top_mlp_dims conv_step border_mode).layers.length)
      (h1 : j < conv_activations.length) (h2 : j < filter_sizes.length)
      (h3 : j < feature_maps.length) (h4 : j < pooling_sizes.length),
      (LeNet.init conv_activations num_channels image_shape filter_sizes
        feature_maps pooling_sizes top_mlp_activations top_mlp_dims
        conv_step border_mode).layers.get ⟨j, h⟩ =
        { filter_size := filter_sizes.get ⟨j, h2⟩
          num_filters := feature_maps.get ⟨j, h3⟩
          pooling_size := pooling_sizes.get ⟨j, h4⟩
          activation := conv_activations.get ⟨j, h1⟩
          conv_step := (LeNet.init conv_activations num_channels image_shape
            filter_sizes feature_maps pooling_sizes top_mlp_activations
            top_mlp_dims conv_step border_mode).conv_step
          border_mode := border_mode
          name := "conv_pool_" ++ toString j } := by
  constructor
  · exact mkLayers_length _ border_mode 0 conv_activations filter_sizes
      feature_maps pooling_sizes
  · intro j h h1 h2 h3 h4
    cases conv_step with
    | none =>
        simpa using mkLayers_get ((1 : Int), (1 : Int)) border_mode
          conv_activations filter_sizes feature_maps pooling_sizes 0 j h
          h1 h2 h3 h4
    | some s =>
        simpa using mkLayers_get s border_mode conv_activations filter_sizes
          feature_maps pooling_sizes 0 j h h1 h2 h3 h4

/-- C6 witness: mismatched list lengths (2, 1, 2, 2) truncate to one
stage, built from the first element of each list and named
`conv_pool_0`. -/
theorem lenet_stage_construction_witness :
    (LeNet.init [Activation.rectifier, Activation.rectifier] 1 (28, 28)
      [(5, 5)] [6, 16] [(2, 2), (2, 2)] [] [10] none
      "valid").layers.length = 1 ∧
    (LeNet.init [Activation.rectifier, Activation.rectifier] 1 (28, 28)
        [(5, 5)] [6, 16] [(2, 2), (2, 2)] [] [10] none
        "valid").layers.get ⟨0, by decide⟩ =
      { filter_size := (5, 5), num_filters := 6, pooling_size := (2, 2),
        activation := Activation.rectifier, conv_step := (1, 1),
        border_mode := "valid", name := "conv_pool_0" } := by
  have h := lenet_stage_construction
    [Activation.rectifier, Activation.rectifier] 1 (28, 28) [(5, 5)]
    [6, 16] [(2, 2), (2, 2)] [] [10] none "valid"
  exact ⟨h.1.trans (by decide),
    (h.2 0 (by decide) (by decide) (by decide) (by decide)
      (by decide)).trans (by decide)⟩

/-- C7 (amended): shape propagation performs no validation of the
computed dimensions: for every instance, including misconfigured ones
whose stages produce non-positive output dimensions, it completes
normally and writes the head width list unconditionally; no error with
stage index and computed dimension is reported. -/
theorem lenet_push_never_errors (net : LeNet) :
    ∃ m, net.push_allocation_config = Except.ok m ∧
      m.top_mlp.dims =
        prod3 net.conv_sequence.get_dim_output :: net.top_mlp_dims :=
  ⟨_, rfl, rfl⟩

/-- C7 counterexample: a single "valid"-mode stage with filter size 5 on
a 4×4 input computes output spatial dimension (4-5+1)/2 = 0 — a
non-positive dimension — yet shape propagation completes normally
(returns the updated instance, reporting no error) and writes the
degenerate width 0 into the head width list. -/
theorem lenet_push_no_error_counterexample :
    (LeNet.init [Activation.rectifier] 1 (4, 4) [(5, 5)] [3] [(2, 2)]
      [Activation.rectifier] [10] none
      "valid").conv_sequence.stageShapes = [(3, 0, 0)] ∧
    ∃ m, (LeNet.init [Activation.rectifier] 1 (4, 4) [(5, 5)] [3]
        [(2, 2)] [Activation.rectifier] [10] none
        "valid").push_allocation_config = Except.ok m ∧
      m.top_mlp.dims = [0, 10] :=
  ⟨by decide, _, rfl, by decide⟩

/-- C8: when the stride argument is omitted (None), the instance's
stride is (1, 1); when a stride is supplied, the instance's stride is
the supplied value; and every constructed stage carries the instance's
stride. -/
theorem lenet_conv_step_default
    (conv_activations : List Activation) (num_channels : Int)
    (image_shape : Int × Int) (filter_sizes : List (Int × Int))
    (feature_maps : List Int) (pooling_sizes : List (Int × Int))
    (top_mlp_activations : List Activation) (top_mlp_dims : List Int)
    (conv_step : Option (Int × Int)) (border_mode : String) :
    (conv_step = none →
      (LeNet.init conv_activations num_channels image_shape filter_sizes
        feature_maps pooling_sizes top_mlp_activations top_mlp_dims
        conv_step border_mode).conv_step = (1, 1)) ∧
    (∀ s, conv_step = some s →
      (LeNet.init conv_activations num_channels image_shape filter_sizes
        feature_maps pooling_sizes top_mlp_activations top_mlp_dims
        conv_step border_mode).conv_step = s) ∧
    (∀ l ∈ (LeNet.init conv_activations num_channels image_shape
        filter_sizes feature_maps pooling_sizes top_mlp_activations
        top_mlp_dims conv_step border_mode).layers,
      l.conv_step =
        (LeNet.init conv_activations num_channels image_shape filter_sizes
          feature_maps pooling_sizes top_mlp_activations top_mlp_dims
          conv_step border_mode).conv_step) := by
  refine ⟨?_, ?_, ?_⟩
  · rintro rfl; rfl
  · rintro s rfl; rfl
  · intro l hl
    cases conv_step with
    | none =>
        exact (mkLayers_mem ((1 : Int), (1 : Int)) border_mode
          conv_activations filter_sizes feature_maps pooling_sizes 0 l hl).1
    | some s =>
        exact (mkLayers_mem s border_mode conv_activations filter_sizes
          feature_maps pooling_sizes 0 l hl).1

/-- C8 witness: the example instance, built with the stride argument
omitted, has stride (1, 1), and both of its stages carry that stride;
supplying stride (2, 3) instead yields stride (2, 3). -/
theorem lenet_conv_step_default_witness :
    exampleNet.conv_step = (1, 1) ∧
    (∀ l ∈ exampleNet.layers, l.conv_step = exampleNet.conv_step) ∧
    (LeNet.init [Activation.rectifier] 1 (28, 28) [(5, 5)] [6] [(2, 2)]
      [Activation.softmax] [10] (some (2, 3)) "valid").conv_step = (2, 3) := by
  have h := lenet_conv_step_default [Activation.rectifier,
    Activation.rectifier] 1 (28, 28) [(5, 5), (5, 5)] [6, 16]
    [(2, 2), (2, 2)] [Activation.rectifier, Activation.rectifier,
    Activation.softmax] [120, 84, 10] none "full"
  have h2 := lenet_conv_step_default [Activation.rectifier] 1 (28, 28)
    [(5, 5)] [6] [(2, 2)] [Activation.softmax] [10] (some (2, 3)) "valid"
  exact ⟨h.1 rfl, h.2.2, h2.2.1 (2, 3) rfl⟩

/-- C2 witness: the example configuration (equal-length stage lists,
head widths [120, 84, 10]) has final output width 10 after shape
propagation. -/
theorem lenet_final_output_width_witness :
    ∃ m v, exampleNet.push_allocation_config = Except.ok m ∧
      ([120, 84, 10] : List Int).getLast? = some v ∧
      m.output_dim = some v ∧
      m.top_mlp.dims.getLast? = some v :=
  lenet_final_output_width [Activation.rectifier, Activation.rectifier] 1
    (28, 28) [(5, 5), (5, 5)] [6, 16] [(2, 2), (2, 2)]
    [Activation.rectifier, Activation.rectifier, Activation.softmax]
    [120, 84, 10] none "full" (by decide) (by decide)
